import Mathlib

/-!
Shallow embedding of `easybuild/tools/singularity/utilities.py` (EasyBuild
Singularity support: recipe generation and image building), together with
theorems settling the specification claims about it.

Conventions of the embedding:
* Python strings are Lean `String`s; Python `s.split(c)` for a one-character
  separator is `pySplitChar`; `os.path.join` is `path_join`;
  `os.path.splitext` is `splitext`; `str.find` is `strFindChar`.
* Python exceptions are the `PyError` type: `EasyBuildError(msg)` becomes
  `PyError.easyBuildError msg`; evaluating an undefined global name (as the
  source does on one line, via the misspelling `EaasyBuildError`) raises
  `PyError.nameError <name>`; concatenating a string with a tuple raises
  `PyError.typeError`.
* Filesystem queries (`os.path.exists`, `os.path.isdir`) are oracles passed
  in as `String → Bool` functions.
* Side effects are reified: the recipe text that would be written with
  `write_file` and the `os.system` command strings are returned in a
  `RecipeResult`, so "the external builder is invoked" means exactly "the
  command list of the `.ok` result contains its command line".
-/

deriving instance DecidableEq for Except

namespace SingularityUtils

/-- Python exception outcomes relevant to this module. -/
inductive PyError where
  | easyBuildError (msg : String)
  | nameError (undefinedName : String)
  | typeError (msg : String)
  deriving Repr, DecidableEq

/-! ### String helpers mirroring the Python standard library -/

/-- Auxiliary for `pySplitChar`: accumulates the current field (reversed). -/
def splitOnCharAux : List Char → Char → List Char → List (List Char)
  | [], _, acc => [acc.reverse]
  | x :: xs, c, acc =>
    if x = c then acc.reverse :: splitOnCharAux xs c []
    else splitOnCharAux xs c (x :: acc)

/-- Python `s.split(c)` for a single-character separator `c`:
`"".split(":") = [""]`, `"a:".split(":") = ["a", ""]`, etc. -/
def pySplitChar (s : String) (c : Char) : List String :=
  (splitOnCharAux s.data c []).map (fun l => String.mk l)

/-- `startsWithList pre s` is true when `pre` is a prefix of `s`. -/
def startsWithList : List Char → List Char → Bool
  | [], _ => true
  | _ :: _, [] => false
  | p :: ps, x :: xs => p == x && startsWithList ps xs

/-- Python `s.startswith(pre)`. -/
def pyStartswith (s pre : String) : Bool := startsWithList pre.data s.data

/-- Python `s.endswith(suf)`. -/
def pyEndswith (s suf : String) : Bool :=
  startsWithList suf.data.reverse s.data.reverse

/-- `hasSubList sub s`: `sub` occurs as a contiguous sublist of `s`. -/
def hasSubList (sub : List Char) : List Char → Bool
  | [] => sub.isEmpty
  | x :: xs => startsWithList sub (x :: xs) || hasSubList sub xs

/-- Python `sub in s` for strings. -/
def pyContains (s sub : String) : Bool := hasSubList sub.data s.data

/-- Index of the last occurrence of `c` in the list (first argument offset by
`i`), or the running best: auxiliary for `rfindChar`. -/
def rfindCharAux : List Char → Char → Int → Int → Int
  | [], _, _, best => best
  | x :: xs, c, i, best => rfindCharAux xs c (i + 1) (if x = c then i else best)

/-- Python `s.rfind(c)` for a single character: last index or `-1`. -/
def rfindChar (s : String) (c : Char) : Int := rfindCharAux s.data c 0 (-1)

/-- Auxiliary for `strFindChar`. -/
def strFindCharAux : List Char → Char → Int → Int
  | [], _, _ => -1
  | x :: xs, c, i => if x = c then i else strFindCharAux xs c (i + 1)

/-- Python `s.find(c)` for a single character: first index or `-1`. -/
def strFindChar (s : String) (c : Char) : Int := strFindCharAux s.data c 0

/-- `posixpath.join` for two components: if `b` is absolute the result is
`b`; if `a` is empty or ends in a slash, `a ++ b`; otherwise `a ++ "/" ++ b`. -/
def path_join (a b : String) : String :=
  if pyStartswith b "/" then b
  else if a = "" ∨ pyEndswith a "/" then a ++ b
  else a ++ "/" ++ b

/-- `posixpath.splitext`: split off the extension at the last `.` that lies
after the last `/` and after at least one non-dot character of the basename
(so `".bashrc"` has no extension). -/
def splitext (p : String) : String × String :=
  let sepIndex := rfindChar p '/'
  let dotIndex := rfindChar p '.'
  if sepIndex < dotIndex then
    if ((p.data.drop (sepIndex + 1).toNat).take (dotIndex - sepIndex - 1).toNat).any
        (fun ch => ch ≠ '.') then
      (String.mk (p.data.take dotIndex.toNat), String.mk (p.data.drop dotIndex.toNat))
    else (p, "")
  else (p, "")

/-! ### Module-level constants (source lines 41-44) -/

def DOCKER : String := "docker"
def LOCALIMAGE : String := "localimage"
def SHUB : String := "shub"
def SINGULARITY_BOOTSTRAP_TYPES : List String := [DOCKER, LOCALIMAGE, SHUB]

/-- The multi-line message of the bootstrap format error (source lines 56-62). -/
def invalidFormatMsg : String :=
  "Invalid Format for --singularity-bootstrap, must be one of the following:" ++
  "\n\n" ++
  "--singularity-bootstrap localimage:/path/to/image\n" ++
  "--singularity-bootstrap shub:<image>:<tag>\n" ++
  "--singularity-bootstrap docker:<image>:<tag>"

/-- The message of the unknown-bootstrap-type error (source line 72). -/
def bootstrapTypeMsg : String :=
  "bootstrap type must be one of docker, localimage, shub"

/-- `check_bootstrap` (source lines 50-74): sanity check for the
`--singularity-bootstrap` option. An empty (falsy) option raises
"must be specified"; a split into fewer than 2 or more than 3 fields raises
the enumerating format error; an unknown first field raises the type error;
otherwise returns the bootstrap type and the list of fields. -/
def check_bootstrap (singularity_bootstrap : String) :
    Except PyError (String × List String) :=
  if singularity_bootstrap = "" then
    .error (.easyBuildError "--singularity-bootstrap must be specified")
  else
    let bootstrap_specs := pySplitChar singularity_bootstrap ':'
    if bootstrap_specs.length > 3 ∨ bootstrap_specs.length ≤ 1 then
      .error (.easyBuildError invalidFormatMsg)
    else
      let bootstrap_type := bootstrap_specs.headD ""
      if bootstrap_type ∉ SINGULARITY_BOOTSTRAP_TYPES then
        .error (.easyBuildError bootstrapTypeMsg)
      else
        .ok (bootstrap_type, bootstrap_specs)

/-! ### Data model: the fields read from the easyconfig (source lines 97-104) -/

/-- One entry of `osdependencies`: either a flat package-name string or a
tuple of alternative package names. -/
inductive OSDep where
  | str (s : String)
  | group (pkgs : List String)
  deriving Repr, DecidableEq

/-- The easyconfig fields that `generate_singularity_recipe` reads from
`ordered_ecs[0]['ec']`. -/
structure EasyConfig where
  name : String
  version : String
  versionsuffix : String
  tcname : String
  tcver : String
  osdependencies : List OSDep
  deriving Repr, DecidableEq

/-- The build options read via `build_option` (source lines 80-82). -/
structure BuildOpts where
  imagename : Option String
  imageformat : String
  buildimage : Bool
  deriving Repr, DecidableEq

/-! ### Pieces of `generate_singularity_recipe`, named after the source's
local variables -/

/-- The localimage path/extension check (source lines 111-121). If the path
exists but its extension is neither `.img` nor `.simg`, the source executes
`raise EaasyBuildError(...)`: `EaasyBuildError` is an undefined name (a typo
for `EasyBuildError`), so Python raises `NameError` at that point and the
intended message is never built. If the path does not exist, a proper
`EasyBuildError` naming the path is raised. -/
def localimage_check (bootstrap_imagepath : String)
    (path_exists : String → Bool) : Except PyError Unit :=
  if path_exists bootstrap_imagepath then
    let image_ext := (splitext bootstrap_imagepath).2
    if image_ext = ".img" ∨ image_ext = ".simg" then .ok ()
    else .error (.nameError "EaasyBuildError")
  else
    .error (.easyBuildError
      ("Singularity base image at specified path does not exist: " ++
        bootstrap_imagepath))

/-- The `bootstrap_content` variable (source lines 133-144). For `localimage`
the header is spelled `Bootstrap:`; for `shub`/`docker` it is spelled
`BootStrap:` (capital S), and the tag (third field, present only when the
bootstrap option had three fields) is appended to the `From:` line after a
colon. -/
def bootstrap_content (bootstrap_type : String) (bootstrap_list : List String) :
    String :=
  if bootstrap_type = LOCALIMAGE then
    "Bootstrap: " ++ bootstrap_type ++ "\n" ++
    "From: " ++ bootstrap_list.getD 1 "" ++ "\n"
  else
    let bootstrap_image := bootstrap_list.getD 1 ""
    if bootstrap_list.length = 3 then
      "BootStrap: " ++ bootstrap_type ++ "\n" ++
      "From: " ++ bootstrap_image ++ ":" ++ bootstrap_list.getD 2 "" ++ "\n"
    else
      "BootStrap: " ++ bootstrap_type ++ "\n" ++
      "From: " ++ bootstrap_image ++ "\n"

/-- The `modulepath` variable (source lines 146-149). -/
def modulepath (module_scheme : String) : String :=
  if module_scheme = "HierarchicalMNS" then "/app/modules/all/Core"
  else "/app/modules/all/"

/-- One `yum install` line per package, in order (source lines 158-159 and
162-163 body). -/
def yum_lines : List String → String
  | [] => ""
  | p :: ps => "yum install -y " ++ p ++ " || true \n" ++ yum_lines ps

/-- The loop of source lines 158-159: every element of `osdependencies` is
concatenated into a `yum install` line; reaching a tuple element raises
`TypeError` (Python cannot concatenate `str` and `tuple`). -/
def flat_osdeps_lines : List OSDep → Except PyError String
  | [] => .ok ""
  | .str s :: rest =>
    (flat_osdeps_lines rest).map
      (fun r => "yum install -y " ++ s ++ " || true \n" ++ r)
  | .group _ :: _ =>
    .error (.typeError "cannot concatenate str and tuple objects")

/-- The os-dependency portion of `post_content` (source lines 155-163): when
the list is non-empty, branch on whether its FIRST element is a string; in
the string case iterate over the whole list, in the tuple case iterate over
the first tuple only (the remaining elements are never read). -/
def osdeps_content (osdeps : List OSDep) : Except PyError String :=
  if osdeps.length > 0 then
    match osdeps.headD (.str "") with
    | .str _ => flat_osdeps_lines osdeps
    | .group pkgs => .ok (yum_lines pkgs)
  else .ok ""

/-- The `easyconfig` variable (source lines 176 and 198): name of the
easyconfig to build. -/
def easyconfig_name (ec : EasyConfig) : String :=
  if ec.tcname ≠ "dummy" then
    ec.name ++ "-" ++ ec.version ++ "-" ++ ec.tcname ++ "-" ++ ec.tcver ++
      ec.versionsuffix ++ ".eb"
  else
    ec.name ++ "-" ++ ec.version ++ ec.versionsuffix ++ ".eb"

/-- The `def_file` variable (source lines 178 and 201): name of the
Singularity definition file. -/
def def_file (ec : EasyConfig) : String :=
  if ec.tcname ≠ "dummy" then
    "Singularity." ++ ec.name ++ "-" ++ ec.version ++ "-" ++ ec.tcname ++ "-" ++
      ec.tcver ++ ec.versionsuffix
  else
    "Singularity." ++ ec.name ++ "-" ++ ec.version ++ ec.versionsuffix

/-- The `ebfile` variable (source lines 180 and 203). -/
def ebfile (ec : EasyConfig) : String :=
  (splitext (easyconfig_name ec)).1 ++ ".eb"

/-- The `eb ...` invocation line appended to `post_content` (source lines
181 and 204; both branches append the identical text). -/
def eb_line (ec : EasyConfig) (module_scheme : String) : String :=
  "eb " ++ ebfile ec ++
    " --robot --installpath=/app/ --prefix=/scratch --tmpdir=/scratch/tmp  --module-naming-scheme=" ++
    module_scheme ++ "\n"

/-- The final `post_content` value (source lines 151-167, 181/204 and
210-214): header, os-dependency lines, pip upgrade, user switch, the `eb`
invocation, then `'\n'.join(['exit', 'rm -rf ...'])` — note the source joins
the `exit` line BEFORE the cleanup line and ends without a newline. -/
def post_content (ec : EasyConfig) (module_scheme : String) :
    Except PyError String :=
  (osdeps_content ec.osdependencies).map (fun osd =>
    "\n%post\n" ++ osd ++
    "pip install -U easybuild \n" ++
    "su - easybuild \n" ++
    eb_line ec module_scheme ++
    "exit\n" ++
    "rm -rf /scratch/tmp/* /scratch/build /scratch/sources /scratch/ebfiles_repo")

/-- The final `environment_content` value (source lines 169-172 and
183-207). -/
def environment_content (ec : EasyConfig) (module_scheme : String) : String :=
  let base := "\n%environment\nsource /etc/profile\n"
  if ec.tcname ≠ "dummy" then
    if module_scheme = "HierarchicalMNS" then
      base ++ "module use " ++ modulepath module_scheme ++ "\n" ++
      "module load " ++ path_join ec.tcname ec.tcver ++ "\n" ++
      "module load " ++ path_join ec.name (ec.version ++ ec.versionsuffix) ++ "\n"
    else
      base ++ "module use " ++ modulepath module_scheme ++ "\n" ++
      "module load " ++
        path_join ec.name
          (ec.version ++ "-" ++ ec.tcname ++ "-" ++ ec.tcver ++ ec.versionsuffix) ++
        "\n"
  else
    base ++ "module use " ++ modulepath module_scheme ++ "\n" ++
    "module load " ++ path_join ec.name (ec.version ++ ec.versionsuffix) ++ "\n"

/-- The `runscript_content` variable (source lines 216-219):
`'\n'.join(["%runscript", 'eval "$@"'])`, with no trailing newline. -/
def runscript_content : String := "%runscript\neval \"$@\""

/-- The `label_content` variable (source line 221). -/
def label_content : String := "\n%labels \n"

/-- The `content` variable (source line 224): concatenation of the five
section strings in source order. -/
def recipe_content (bootstrap_type : String) (bootstrap_list : List String)
    (ec : EasyConfig) (module_scheme : String) : Except PyError String :=
  (post_content ec module_scheme).map (fun pc =>
    bootstrap_content bootstrap_type bootstrap_list ++ pc ++
    runscript_content ++ environment_content ec module_scheme ++ label_content)

/-- The `container_name` base value (source lines 233-241): the verbatim
`--imagename` option when set, otherwise the definition-file name with
everything up to and including its first `.` stripped (Python
`def_file[def_file.find('.') + 1:]`). -/
def container_name_base (image_name : Option String) (df : String) : String :=
  match image_name with
  | some n => n
  | none => String.mk (df.data.drop (strFindChar df '.' + 1).toNat)

/-- The image-build phase (source lines 231-269), reified: returns the list
of `os.system` command lines it would run, or the error it raises. For each
format the format-specific suffix is appended, and if a file with the
resulting name already exists an `EasyBuildError` naming
`os.path.join(singularity_writepath, container_name)` is raised before any
builder command is issued. An unrecognized format falls through silently. -/
def build_image_phase (image_name : Option String) (image_format : String)
    (df : String) (singularity_writepath : String)
    (path_exists : String → Bool) : Except PyError (List String) :=
  let container_name := container_name_base image_name df
  if image_format = "squashfs" then
    let cn := container_name ++ ".simg"
    if path_exists cn then
      .error (.easyBuildError
        ("Image already exist at " ++ path_join singularity_writepath cn))
    else .ok ["sudo singularity build " ++ cn ++ " " ++ df]
  else if image_format = "ext3" then
    let cn := container_name ++ ".img"
    if path_exists cn then
      .error (.easyBuildError
        ("Image already exist at " ++ path_join singularity_writepath cn))
    else .ok ["sudo singularity build --writable " ++ cn ++ " " ++ df]
  else if image_format = "sandbox" then
    if path_exists container_name then
      .error (.easyBuildError
        ("Image already exist at " ++ path_join singularity_writepath container_name))
    else .ok ["sudo singularity build --sandbox " ++ container_name ++ " " ++ df]
  else .ok []

/-- The observable outcome of `generate_singularity_recipe`: the definition
file name and content passed to `write_file`, and the `os.system` commands
issued afterwards. -/
structure RecipeResult where
  def_file : String
  content : String
  commands : List String
  deriving Repr, DecidableEq

/-- `generate_singularity_recipe` (source lines 77-269): validates the
configured singularity path, the bootstrap option and (for `localimage`) the
base image, builds the five recipe sections, and, when `buildimage` is set,
runs the image-build phase. -/
def generate_singularity_recipe (ec : EasyConfig) (opts : BuildOpts)
    (singularity_bootstrap : String) (module_scheme : String)
    (sing_path : String) (path_exists : String → Bool)
    (is_dir : String → Bool) : Except PyError RecipeResult := do
  if ¬ (path_exists sing_path && is_dir sing_path) then
    throw (.easyBuildError
      ("Invalid path: " ++ sing_path ++ " please specify a valid directory path"))
  let (bootstrap_type, bootstrap_list) ← check_bootstrap singularity_bootstrap
  if bootstrap_type = LOCALIMAGE then
    localimage_check (bootstrap_list.getD 1 "") path_exists
  else
    pure ()
  let content ← recipe_content bootstrap_type bootstrap_list ec module_scheme
  let df := def_file ec
  if opts.buildimage then
    let cmds ← build_image_phase opts.imagename opts.imageformat df sing_path
      path_exists
    pure ⟨df, content, cmds⟩
  else
    pure ⟨df, content, []⟩

/-- `check_singularity` (source lines 272-290), capability-check portion.
When `singularity` is found on the search path, the source extracts the text
before the first `-` of the reported version and proceeds: the version
comparison of source lines 287-290 is UNREACHABLE, because it is placed
inside the `elif` branch taken only when the tool was NOT found, and after
the `raise` on line 285. When the tool is absent and an image build was
requested, an `EasyBuildError` is raised; when absent without an image-build
request, the function proceeds with `singularity_version = 0`. Returns the
extracted version string in the found case. -/
def check_singularity_capability (singularity_found : Bool)
    (version_output : String) (buildimage : Bool) :
    Except PyError (Option String) :=
  if singularity_found then
    .ok (some ((pySplitChar version_output '-').headD ""))
  else if buildimage then
    .error (.easyBuildError "Singularity not found in your system")
  else
    .ok none

/-- A full concrete run of the generator: bzip2 1.0.6 without toolchain,
bootstrap `shub:centos:7`, flat module scheme, no image build. -/
def shub_bzip2_recipe : Except PyError RecipeResult :=
  generate_singularity_recipe ⟨"bzip2", "1.0.6", "", "dummy", "", []⟩
    ⟨none, "squashfs", false⟩ "shub:centos:7" "EasyBuildMNS" "/tmp"
    (fun _ => true) (fun _ => true)

/-- The lines of the document produced by `shub_bzip2_recipe`. -/
def shub_bzip2_recipe_lines : List String :=
  ["BootStrap: shub", "From: centos:7", "", "%post", "pip install -U easybuild ",
    "su - easybuild ",
    "eb bzip2-1.0.6.eb --robot --installpath=/app/ --prefix=/scratch --tmpdir=/scratch/tmp  --module-naming-scheme=EasyBuildMNS",
    "exit",
    "rm -rf /scratch/tmp/* /scratch/build /scratch/sources /scratch/ebfiles_repo%runscript",
    "eval \"$@\"", "%environment", "source /etc/profile",
    "module use /app/modules/all/", "module load bzip2/1.0.6", "", "%labels ", ""]

/-! ### Claim theorems -/

/-- C1: the claim says the capability check raises an UnsupportedVersionError
whenever an image build was requested and the reported version (text before
the first `-`) is below 2.4 or non-numeric, and never silently continues past
an invalid version string. The code does not: when the builder is found it
extracts the version text and continues unconditionally — the version
comparison in the source (lines 287-290) sits after a `raise` inside the
branch taken only when the builder is NOT found, so it is unreachable. This
theorem evaluates the code at the claim's own failing inputs: reported
version `"2.3-dist"` with an image build requested passes silently (version
extracted as `"2.3"`), non-numeric `"unknown"` also passes silently, while
the absent-builder case does raise. -/
theorem c1_version_check_unreachable :
    check_singularity_capability true "2.3-dist" true = .ok (some "2.3") ∧
    check_singularity_capability true "unknown" true = .ok (some "unknown") ∧
    check_singularity_capability false "" true =
      .error (.easyBuildError "Singularity not found in your system") :=
  ⟨rfl, rfl, rfl⟩

/-- C2: the claim says an existing localimage path with a suffix other than
`.img`/`.simg` raises a ValidationError naming the suffix. The code instead
executes `raise EaasyBuildError(...)` — an undefined name (typo for
`EasyBuildError`) — so Python raises a NameError and the intended message is
never built. The missing-path half of the claim does hold: a non-existent
path raises the proper error naming the path. -/
theorem c2_wrong_suffix_raises_nameError :
    localimage_check "/x.tar" (fun p => p == "/x.tar") =
      .error (.nameError "EaasyBuildError") ∧
    localimage_check "/nonexistent.img" (fun _ => false) =
      .error (.easyBuildError
        "Singularity base image at specified path does not exist: /nonexistent.img") :=
  ⟨rfl, rfl⟩

/-- C5: the claim says the post-install section ends with the build
invocation, then the cleanup line, then `exit` last. The code joins
`'\n'.join(['exit', "rm -rf ..."])`, so `exit` PRECEDES the cleanup line and
the cleanup line is last (and, as a shell script, never executed). This
theorem computes the post-install section lines for a concrete target: the
`eb` invocation is line 4, `exit` line 5, and the cleanup line 6 (last). -/
theorem c5_exit_precedes_cleanup :
    (post_content ⟨"bzip2", "1.0.6", "", "dummy", "", []⟩ "EasyBuildMNS").map
        (fun pc => pySplitChar pc '\n') =
      .ok ["", "%post", "pip install -U easybuild ", "su - easybuild ",
        "eb bzip2-1.0.6.eb --robot --installpath=/app/ --prefix=/scratch --tmpdir=/scratch/tmp  --module-naming-scheme=EasyBuildMNS",
        "exit",
        "rm -rf /scratch/tmp/* /scratch/build /scratch/sources /scratch/ebfiles_repo"] :=
  rfl

/-- C8: the claim says every section header is present in every produced
document (an absent body still yields the header). In the code,
`post_content` ends with the cleanup line WITHOUT a trailing newline and
`runscript_content` is concatenated directly after it, so the produced
document contains the line
`rm -rf ... /scratch/ebfiles_repo%runscript` and `%runscript` is not a line
of the document at all: the Runscript header is glued to the last post line.
This theorem computes the full line list of a concrete document and records
that `%runscript` does not occur as a line while the glued line does. -/
theorem c8_runscript_header_glued :
    shub_bzip2_recipe.map (fun r => pySplitChar r.content '\n') =
        .ok shub_bzip2_recipe_lines ∧
    shub_bzip2_recipe_lines.contains "%runscript" = false ∧
    shub_bzip2_recipe_lines.contains
      "rm -rf /scratch/tmp/* /scratch/build /scratch/sources /scratch/ebfiles_repo%runscript" = true :=
  ⟨rfl, rfl, rfl⟩

/-- C4 counterexample: the claim asserts that EVERY bootstrap string whose
colon-split has fewer than 2 fields fails with the ValidationError whose
message enumerates the three accepted forms. The empty string splits into a
single field, yet fails with the distinct message
"--singularity-bootstrap must be specified", which does not even mention
`localimage` (whereas the enumerating message does). -/
theorem c4_counterexample_empty_string :
    (pySplitChar "" ':').length = 1 ∧
    check_bootstrap "" =
      .error (.easyBuildError "--singularity-bootstrap must be specified") ∧
    pyContains "--singularity-bootstrap must be specified" "localimage" = false ∧
    pyContains invalidFormatMsg "localimage" = true :=
  ⟨rfl, rfl, rfl, rfl⟩

/-- C6 counterexample: the claim asserts the first Bootstrap-section line is
`Bootstrap: <kind>` with identical header text for all three kinds. For the
`docker` kind the code writes `BootStrap: docker` (capital S), which differs
from `Bootstrap: docker`. -/
theorem c6_counterexample_header_spelling :
    (pySplitChar (bootstrap_content DOCKER ["docker", "ubuntu", "latest"]) '\n').headD ""
      = "BootStrap: docker" ∧
    "BootStrap: docker" ≠ "Bootstrap: " ++ DOCKER :=
  ⟨rfl, by decide⟩

/-- C3: for each of the three image formats — `squashfs` (suffix `.simg`),
`ext3` (suffix `.img`), `sandbox` (no suffix) — if the derived final image
path (container-name base plus format suffix) already exists, the image-build
phase raises an error naming the joined conflicting path, and, since builder
command lines are only ever returned in the `.ok` branch, the external
builder is never invoked. -/
theorem c3_already_exists_blocks_build (image_name : Option String)
    (image_format suffix df wp : String) (pexists : String → Bool)
    (hfmt : (image_format = "squashfs" ∧ suffix = ".simg") ∨
            (image_format = "ext3" ∧ suffix = ".img") ∨
            (image_format = "sandbox" ∧ suffix = ""))
    (hex : pexists (container_name_base image_name df ++ suffix) = true) :
    build_image_phase image_name image_format df wp pexists =
      .error (.easyBuildError ("Image already exist at " ++
        path_join wp (container_name_base image_name df ++ suffix))) := by
  rcases hfmt with ⟨hf, hs⟩ | ⟨hf, hs⟩ | ⟨hf, hs⟩ <;> subst hf <;> subst hs
  · simp [build_image_phase, hex]
  · simp [build_image_phase, hex]
  · rw [String.append_empty] at hex
    simp [build_image_phase, hex, String.append_empty]

/-- Witness for C3 at a concrete input: `--imagename foo`, squashfs format,
with `foo.simg` already present. -/
theorem c3_already_exists_blocks_build_witness :
    build_image_phase (some "foo") "squashfs" "Singularity.foo" "/tmp"
        (fun s => s == "foo.simg") =
      .error (.easyBuildError "Image already exist at /tmp/foo.simg") :=
  c3_already_exists_blocks_build (some "foo") "squashfs" ".simg"
    "Singularity.foo" "/tmp" (fun s => s == "foo.simg")
    (Or.inl ⟨rfl, rfl⟩) (by decide)

/-- Helper for C9: iterating the flat branch over a list that is entirely
flat strings produces one `yum install` line per element, in order. -/
theorem flat_osdeps_lines_map_str (ss : List String) :
    flat_osdeps_lines (ss.map OSDep.str) = .ok (yum_lines ss) := by
  induction ss with
  | nil => rfl
  | cons s ss ih => simp [flat_osdeps_lines, yum_lines, ih, Except.map]

/-- C9: when the first os-dependency entry is a nested group, the generator
emits one fault-tolerant install line per alternative of that FIRST group
only and silently ignores every subsequent entry (`rest` does not occur on
the right-hand side); when the entries are flat strings, it emits one line
per element of the whole list. -/
theorem c9_osdeps_first_element_dispatch (g : List String) (rest : List OSDep)
    (ss : List String) :
    osdeps_content (OSDep.group g :: rest) = .ok (yum_lines g) ∧
    osdeps_content (ss.map OSDep.str) = .ok (yum_lines ss) := by
  constructor
  · simp [osdeps_content]
  · cases ss with
    | nil => rfl
    | cons s ss =>
      have h := flat_osdeps_lines_map_str (s :: ss)
      simp only [List.map] at h
      simp [osdeps_content, h]

/-- C10: when the image-name build option is set, the final image filename
base is that value verbatim, whatever the definition-file name is; when it is
unset, the base is the definition-file name with everything up to and
including its first `.` stripped — and since every definition-file name the
generator derives has the shape `Singularity.<stem>` with no dot before the
separator, the base is exactly `<stem>`. -/
theorem c10_imagename_overrides_stem (ec : EasyConfig) (v stem : String) :
    container_name_base (some v) (def_file ec) = v ∧
    container_name_base none ("Singularity." ++ stem) = stem := by
  constructor
  · rfl
  · obtain ⟨d⟩ := stem
    rfl

/-- C6 amended: the Bootstrap section is two lines; the header line is
`Bootstrap: <kind>` for LocalImage but `BootStrap: <kind>` (capital S) for
Shub/Docker, and the `From:` line carries the local path for LocalImage or
the image reference for Shub/Docker with `:<tag>` appended exactly when a
tag was given (three bootstrap fields). -/
theorem c6_bootstrap_section_amended (bt : String) (l : List String) :
    (bt = LOCALIMAGE →
      bootstrap_content bt l =
        "Bootstrap: " ++ bt ++ "\n" ++ "From: " ++ l.getD 1 "" ++ "\n") ∧
    (bt ≠ LOCALIMAGE → l.length = 3 →
      bootstrap_content bt l =
        "BootStrap: " ++ bt ++ "\n" ++ "From: " ++ l.getD 1 "" ++ ":" ++
          l.getD 2 "" ++ "\n") ∧
    (bt ≠ LOCALIMAGE → l.length ≠ 3 →
      bootstrap_content bt l =
        "BootStrap: " ++ bt ++ "\n" ++ "From: " ++ l.getD 1 "" ++ "\n") := by
  refine ⟨fun h => ?_, fun h h3 => ?_, fun h h3 => ?_⟩
  · simp [bootstrap_content, h]
  · simp [bootstrap_content, h, h3]
  · simp [bootstrap_content, h, h3]

/-- Witness for C6 amended: shub with a tag, and a local image. -/
theorem c6_bootstrap_section_amended_witness :
    bootstrap_content SHUB ["shub", "centos", "7"] =
      "BootStrap: shub\nFrom: centos:7\n" ∧
    bootstrap_content LOCALIMAGE ["localimage", "/tmp/base.img"] =
      "Bootstrap: localimage\nFrom: /tmp/base.img\n" :=
  ⟨(c6_bootstrap_section_amended SHUB ["shub", "centos", "7"]).2.1
      (by decide) rfl,
    (c6_bootstrap_section_amended LOCALIMAGE
      ["localimage", "/tmp/base.img"]).1 rfl⟩

/-- C7: derived names and environment section. With a non-sentinel toolchain
(`tcname ≠ "dummy"`) the easyconfig filename is
`<name>-<version>-<tcname>-<tcver><versionsuffix>.eb` and the recipe filename
is `Singularity.<name>-<version>-<tcname>-<tcver><versionsuffix>`; under the
Hierarchical scheme the Environment section carries two `module load` lines
(toolchain module first, then `<name>/<version><suffix>`), and under any
other scheme a single `module load <name>/<version>-<tcname>-<tcver><suffix>`
line. With the sentinel ("dummy") toolchain the names drop the toolchain part
and the section carries the single line `module load <name>/<version><suffix>`
under every scheme. The `py*` hypotheses rule out the degenerate inputs in
which `os.path.join` would not insert a plain `/` (empty name, name ending in
`/`, version starting with `/`). -/
theorem c7_filenames_and_module_loads (ec : EasyConfig) (scheme : String)
    (hname : ec.name ≠ "") (hname2 : pyEndswith ec.name "/" = false)
    (htcn : ec.tcname ≠ "") (htcn2 : pyEndswith ec.tcname "/" = false)
    (htcv : pyStartswith ec.tcver "/" = false)
    (hv1 : pyStartswith (ec.version ++ ec.versionsuffix) "/" = false)
    (hv2 : pyStartswith
      (ec.version ++ "-" ++ ec.tcname ++ "-" ++ ec.tcver ++ ec.versionsuffix)
      "/" = false) :
    (ec.tcname ≠ "dummy" →
      easyconfig_name ec =
        ec.name ++ "-" ++ ec.version ++ "-" ++ ec.tcname ++ "-" ++ ec.tcver ++
          ec.versionsuffix ++ ".eb" ∧
      def_file ec =
        "Singularity." ++ ec.name ++ "-" ++ ec.version ++ "-" ++ ec.tcname ++
          "-" ++ ec.tcver ++ ec.versionsuffix ∧
      environment_content ec "HierarchicalMNS" =
        "\n%environment\nsource /etc/profile\n" ++
        "module use /app/modules/all/Core\n" ++
        "module load " ++ ec.tcname ++ "/" ++ ec.tcver ++ "\n" ++
        "module load " ++ ec.name ++ "/" ++ ec.version ++ ec.versionsuffix ++
          "\n" ∧
      (scheme ≠ "HierarchicalMNS" →
        environment_content ec scheme =
          "\n%environment\nsource /etc/profile\n" ++
          "module use /app/modules/all/\n" ++
          "module load " ++ ec.name ++ "/" ++ ec.version ++ "-" ++ ec.tcname ++
            "-" ++ ec.tcver ++ ec.versionsuffix ++ "\n")) ∧
    (ec.tcname = "dummy" →
      easyconfig_name ec = ec.name ++ "-" ++ ec.version ++ ec.versionsuffix ++ ".eb" ∧
      def_file ec = "Singularity." ++ ec.name ++ "-" ++ ec.version ++ ec.versionsuffix ∧
      environment_content ec scheme =
        "\n%environment\nsource /etc/profile\n" ++
        "module use " ++ modulepath scheme ++ "\n" ++
        "module load " ++ ec.name ++ "/" ++ ec.version ++ ec.versionsuffix ++
          "\n") := by
  constructor
  · intro htc
    refine ⟨?_, ?_, ?_, ?_⟩
    · simp [easyconfig_name, htc]
    · simp [def_file, htc]
    · simp [environment_content, htc, modulepath, path_join, htcv, hv1,
        hname, hname2, htcn, htcn2, String.append_assoc]
    · intro hsch
      have hv2' := hv2
      simp only [String.append_assoc] at hv2'
      simp [environment_content, htc, modulepath, path_join, hv2', hname,
        hname2, hsch, String.append_assoc]
  · intro htc
    refine ⟨?_, ?_, ?_⟩
    · simp [easyconfig_name, htc]
    · simp [def_file, htc]
    · simp [environment_content, htc, path_join, hv1, hname, hname2,
        String.append_assoc]

/-- Witness for C7 at the spec's Scenario B input: R 3.3.1 with the
intel/2017a toolchain under the Hierarchical scheme. -/
theorem c7_filenames_and_module_loads_witness :
    def_file ⟨"R", "3.3.1", "", "intel", "2017a", []⟩ =
      "Singularity.R-3.3.1-intel-2017a" ∧
    environment_content ⟨"R", "3.3.1", "", "intel", "2017a", []⟩
        "HierarchicalMNS" =
      "\n%environment\nsource /etc/profile\nmodule use /app/modules/all/Core\nmodule load intel/2017a\nmodule load R/3.3.1\n" := by
  have h := (c7_filenames_and_module_loads ⟨"R", "3.3.1", "", "intel", "2017a", []⟩
    "HierarchicalMNS" (by decide) (by decide) (by decide) (by decide)
    (by decide) (by decide) (by decide)).1 (by decide)
  exact ⟨h.2.1, h.2.2.1⟩

/-- C4 amended: `check_bootstrap` succeeds exactly when splitting on `:`
yields 2 or 3 fields whose first field is one of
localimage/shub/docker, and then returns that first field as the bootstrap
kind together with the field list. A NON-EMPTY string with fewer than 2 or
more than 3 fields fails with the ValidationError enumerating the three
accepted forms; the EMPTY string (the only string with fewer than 2 fields
reachable with a distinct message) fails with the
"--singularity-bootstrap must be specified" error instead, which does not
enumerate the forms; 2 or 3 fields with an unrecognized first field fail
with the bootstrap-type error. -/
theorem c4_resolve_amended (s : String) :
    ((check_bootstrap s).isOk = true ↔
      (((pySplitChar s ':').length = 2 ∨ (pySplitChar s ':').length = 3) ∧
        (pySplitChar s ':').headD "" ∈ SINGULARITY_BOOTSTRAP_TYPES)) ∧
    ((check_bootstrap s).isOk = true →
      check_bootstrap s =
        .ok ((pySplitChar s ':').headD "", pySplitChar s ':')) ∧
    (s ≠ "" →
      ((pySplitChar s ':').length ≤ 1 ∨ (pySplitChar s ':').length > 3) →
      check_bootstrap s = .error (.easyBuildError invalidFormatMsg)) ∧
    (s = "" →
      check_bootstrap s =
        .error (.easyBuildError "--singularity-bootstrap must be specified")) ∧
    (((pySplitChar s ':').length = 2 ∨ (pySplitChar s ':').length = 3) →
      (pySplitChar s ':').headD "" ∉ SINGULARITY_BOOTSTRAP_TYPES →
      check_bootstrap s = .error (.easyBuildError bootstrapTypeMsg)) := by
  by_cases hs : s = ""
  · subst hs
    refine ⟨by decide, by decide, ?_, fun _ => rfl, by decide⟩
    intro h
    exact absurd rfl h
  · by_cases hlen : (pySplitChar s ':').length > 3 ∨ (pySplitChar s ':').length ≤ 1
    · have hck : check_bootstrap s = .error (.easyBuildError invalidFormatMsg) := by
        simp [check_bootstrap, hs, hlen]
      refine ⟨?_, ?_, fun _ _ => hck, fun h => absurd h hs, ?_⟩
      · constructor
        · intro h
          rw [hck] at h
          simp [Except.isOk, Except.toBool] at h
        · rintro ⟨h1, -⟩
          exact absurd h1 (by omega)
      · intro h
        rw [hck] at h
        simp [Except.isOk, Except.toBool] at h
      · intro h1 _
        exact absurd h1 (by omega)
    · by_cases hmem : (pySplitChar s ':').headD "" ∈ SINGULARITY_BOOTSTRAP_TYPES
      · have hmem' := hmem
        rw [List.headD_eq_head?_getD] at hmem'
        have hck : check_bootstrap s =
            .ok ((pySplitChar s ':').headD "", pySplitChar s ':') := by
          simp [check_bootstrap, hs, hlen, hmem', List.headD_eq_head?_getD]
        refine ⟨?_, fun _ => hck, ?_, fun h => absurd h hs, ?_⟩
        · constructor
          · intro _
            exact ⟨by omega, hmem⟩
          · intro _
            rw [hck]
            rfl
        · intro _ h
          exact absurd h (by omega)
        · intro _ h
          exact absurd hmem h
      · have hmem' := hmem
        rw [List.headD_eq_head?_getD] at hmem'
        have hck : check_bootstrap s = .error (.easyBuildError bootstrapTypeMsg) := by
          simp [check_bootstrap, hs, hlen, hmem', List.headD_eq_head?_getD]
        refine ⟨?_, ?_, ?_, fun h => absurd h hs, fun _ _ => hck⟩
        · constructor
          · intro h
            rw [hck] at h
            simp [Except.isOk, Except.toBool] at h
          · rintro ⟨-, h2⟩
            exact absurd h2 hmem
        · intro h
          rw [hck] at h
          simp [Except.isOk, Except.toBool] at h
        · intro _ h
          exact absurd h (by omega)

/-- Witness for C4 amended: too many fields, the empty string, an unknown
first field, and a successful docker resolution. -/
theorem c4_resolve_amended_witness :
    check_bootstrap "a:b:c:d" = .error (.easyBuildError invalidFormatMsg) ∧
    check_bootstrap "" =
      .error (.easyBuildError "--singularity-bootstrap must be specified") ∧
    check_bootstrap "foo:bar" = .error (.easyBuildError bootstrapTypeMsg) ∧
    check_bootstrap "docker:ubuntu:latest" =
      .ok ("docker", ["docker", "ubuntu", "latest"]) :=
  ⟨(c4_resolve_amended "a:b:c:d").2.2.1 (by decide) (by decide),
    (c4_resolve_amended "").2.2.2.1 rfl,
    (c4_resolve_amended "foo:bar").2.2.2.2 (by decide) (by decide),
    (c4_resolve_amended "docker:ubuntu:latest").2.1 (by decide)⟩

end SingularityUtils
